import Mathlib

/-!
Shallow embedding of the push-notification dispatch core of
`backend-fcm/main.py` (MamaCare).

The embedding models the service after a successful startup: the Firestore
client and the Firebase messaging SDK are available (the source's
`if not db` / `if not firebase_initialized` guards, which short-circuit every
operation when startup failed, are outside the behaviour the claims are
about).  The Firestore `users` and `appointments` collections are modelled as
association lists keyed by document id; the push-delivery provider
(`messaging.send`) is modelled as an outcome oracle indexed by call number and
token, so theorems quantify over every possible set of per-target outcomes.
-/

/-- A raw value stored inside a user's `fcmTokens` list.  Firestore lists may
hold non-string entries; `get_user_fcm_tokens` filters those out with
`token and isinstance(token, str)`. -/
inductive FieldVal
  | str (s : String)
  | nonStr
deriving DecidableEq, Repr

/-- The `fcmTokens` field of a user document: absent, a list, a single
string, or some other (unexpected) value. -/
inductive TokenField
  | missing
  | listField (ts : List FieldVal)
  | strField (s : String)
  | otherField
deriving DecidableEq, Repr

/-- The `users` collection: document id to the document's `fcmTokens` field.
A key absent from the list models a user document that does not exist. -/
abbrev Users := List (String × TokenField)

def lookupUser : Users → String → Option TokenField
  | [], _ => none
  | (k, f) :: rest, uid => if k = uid then some f else lookupUser rest uid

def updateUser (users : Users) (uid : String) (f : TokenField) : Users :=
  users.map fun p => if p.1 = uid then (uid, f) else p

/-- The list comprehension in `get_user_fcm_tokens`:
`[token for token in tokens if token and isinstance(token, str)]`.
An empty string is falsy in Python, so it is dropped along with every
non-string entry. -/
def filterValid (ts : List FieldVal) : List String :=
  ts.filterMap fun v =>
    match v with
    | .str s => if s = "" then none else some s
    | .nonStr => none

/-- `get_user_fcm_tokens(user_id)`.  Returns `[]` when the document does not
exist, when the `fcmTokens` field is missing or malformed, and when no valid
token survives filtering; it has no error channel (every exception is caught
and mapped to `[]`). -/
def getUserFcmTokens (users : Users) (userId : String) : List String :=
  match lookupUser users userId with
  | some f =>
    match f with
    | .listField ts => filterValid ts
    | .strField s => if s = "" then [] else [s]
    | .missing => []
    | .otherField => []
  | none => []

/-- `remove_unregistered_token(user_id, invalid_token)`.  Mirrors the Python
branches: missing document or unexpected field shape give `False`; a list
containing the token has its first occurrence removed (`list.remove`) and the
raw list (non-string entries included) is written back; a single string field
equal to the token is deleted (`DELETE_FIELD`, modelled as `.missing`). -/
def removeUnregisteredToken (users : Users) (userId invalidToken : String) :
    Bool × Users :=
  match lookupUser users userId with
  | none => (false, users)
  | some tokens =>
    match tokens with
    | .listField ts =>
      if ts.contains (FieldVal.str invalidToken) then
        (true, updateUser users userId
          (.listField (ts.erase (FieldVal.str invalidToken))))
      else (false, users)
    | .strField s =>
      if s = invalidToken then (true, updateUser users userId .missing)
      else (false, users)
    | .missing => (false, users)
    | .otherField => (false, users)

/-- Outcome of one `messaging.send` call, as classified by the `except`
clauses of `send_notifications_to_user`: success, `UnregisteredError`,
any other `FirebaseError` (`InvalidArgumentError` included), or any other
exception. -/
inductive SendOutcome
  | delivered (msgId : String)
  | unregistered
  | firebaseErr
  | otherErr
deriving DecidableEq, Repr

/-- State accumulated by the per-token loop of `send_notifications_to_user`:
the three counters, the (possibly pruned) user store, the tokens for which
`messaging.send` was invoked, and the tokens for which
`remove_unregistered_token` was invoked. -/
structure LoopState where
  success : Nat
  failure : Nat
  removed : Nat
  users : Users
  sendTrace : List String
  pruneTrace : List String
deriving DecidableEq, Repr

/-- The `for token in tokens` loop of `send_notifications_to_user`.  `send`
is the provider oracle (call index, token); every iteration invokes the
provider exactly once, classifies the outcome, and on `UnregisteredError`
attempts a prune whose boolean result only feeds the `tokens_removed`
counter. -/
def sendLoop (send : Nat → String → SendOutcome) (userId : String) :
    List String → Nat → Users → LoopState
  | [], _, users =>
    { success := 0, failure := 0, removed := 0, users := users,
      sendTrace := [], pruneTrace := [] }
  | t :: ts, i, users =>
    match send i t with
    | .delivered _ =>
      let rest := sendLoop send userId ts (i + 1) users
      { rest with success := rest.success + 1, sendTrace := t :: rest.sendTrace }
    | .unregistered =>
      let pr := removeUnregisteredToken users userId t
      let rest := sendLoop send userId ts (i + 1) pr.2
      { rest with failure := rest.failure + 1,
                  removed := rest.removed + (if pr.1 then 1 else 0),
                  sendTrace := t :: rest.sendTrace,
                  pruneTrace := t :: rest.pruneTrace }
    | .firebaseErr =>
      let rest := sendLoop send userId ts (i + 1) users
      { rest with failure := rest.failure + 1, sendTrace := t :: rest.sendTrace }
    | .otherErr =>
      let rest := sendLoop send userId ts (i + 1) users
      { rest with failure := rest.failure + 1, sendTrace := t :: rest.sendTrace }

/-- The dictionary returned by `send_notifications_to_user`: either the
`no_target` early return (status and message only) or the counted result
(status, success, failure, targeted, removed). -/
inductive FanoutResult
  | noTarget (message : String)
  | counted (status : String) (successCount failureCount tokensTargeted tokensRemoved : Nat)
deriving DecidableEq, Repr

/-- The status derivation at the end of `send_notifications_to_user`:
`"success"` by default, `"failure"` when nothing succeeded and something
failed, `"partial_success"` when something failed but something succeeded. -/
def deriveStatus (success failure : Nat) : String :=
  if success = 0 ∧ 0 < failure then "failure"
  else if 0 < failure then "partial_success"
  else "success"

/-- `send_notifications_to_user(user_id, user_type, title, body, data,
high_priority)`.  The title, body, data payload and priority are carried to
the provider but the outcome of each call is decided by the `send` oracle.
Returns the result dictionary together with the final loop state (pruned
store and call traces). -/
def sendNotificationsToUser (send : Nat → String → SendOutcome)
    (userId userType title body : String) (data : List (String × String))
    (highPriority : Bool) (users : Users) : FanoutResult × LoopState :=
  let tokens := getUserFcmTokens users userId
  if tokens.isEmpty then
    (FanoutResult.noTarget
      ("No FCM tokens available for " ++ userType ++ " " ++ userId),
     { success := 0, failure := 0, removed := 0, users := users,
       sendTrace := [], pruneTrace := [] })
  else
    let st := sendLoop send userId tokens 0 users
    (FanoutResult.counted (deriveStatus st.success st.failure)
       st.success st.failure tokens.length st.removed, st)

/-- The tokens of a fanout whose provider outcome is `UnregisteredError`, in
order: the targets for which the source attempts a prune. -/
def invalidTargets (send : Nat → String → SendOutcome) :
    List String → Nat → List String
  | [], _ => []
  | t :: ts, i =>
    match send i t with
    | .unregistered => t :: invalidTargets send ts (i + 1)
    | _ => invalidTargets send ts (i + 1)

/-- `AppointmentStatus` — the status enum of `main.py`. -/
inductive AppointmentStatus
  | pending
  | confirmed
  | scheduled
  | completed
  | declinedDoctor
  | cancelledPatient
  | declined
deriving DecidableEq, Repr

/-- The `.value` of each enum member. -/
def AppointmentStatus.value : AppointmentStatus → String
  | .pending => "pending"
  | .confirmed => "confirmed"
  | .scheduled => "scheduled"
  | .completed => "completed"
  | .declinedDoctor => "declined_doctor"
  | .cancelledPatient => "cancelled_patient"
  | .declined => "declined"

/-- Python's `status.name.capitalize()`: first letter upper-case, the rest
lower-case (so `DECLINED_DOCTOR` becomes `Declined_doctor`). -/
def AppointmentStatus.nameCapitalized : AppointmentStatus → String
  | .pending => "Pending"
  | .confirmed => "Confirmed"
  | .scheduled => "Scheduled"
  | .completed => "Completed"
  | .declinedDoctor => "Declined_doctor"
  | .cancelledPatient => "Cancelled_patient"
  | .declined => "Declined"

/-- An appointment document.  `statusUpdatedAt` records whether the
`statusLastUpdatedAt` server timestamp has been written (the timestamp value
itself is opaque). -/
structure ApptRecord where
  status : String
  patientId : Option String
  doctorId : Option String
  doctorName : Option String
  cancellationReason : Option String
  statusUpdatedAt : Bool
deriving DecidableEq, Repr

/-- The `appointments` collection, keyed by appointment id. -/
abbrev Appts := List (String × ApptRecord)

def lookupAppt : Appts → String → Option ApptRecord
  | [], _ => none
  | (k, r) :: rest, aid => if k = aid then some r else lookupAppt rest aid

def updateAppt (appts : Appts) (aid : String) (r : ApptRecord) : Appts :=
  appts.map fun p => if p.1 = aid then (aid, r) else p

/-- `UpdateAppointmentStatusPayload`. -/
structure UpdatePayload where
  appointmentId : String
  newStatus : AppointmentStatus
  doctorId : Option String
  cancellationReason : Option String
deriving DecidableEq, Repr

/-- Python truthiness of an optional string: `None` and `""` are falsy. -/
def optFalsy : Option String → Bool
  | none => true
  | some s => s = ""

/-- The check `payload.doctor_id and payload.doctor_id != doctor_id_original`:
skipped when the payload's doctor id is falsy, otherwise a mismatch whenever
the record's `doctorId` (possibly `None`) differs from it. -/
def authMismatch (payloadDoctor recordDoctor : Option String) : Bool :=
  match payloadDoctor with
  | none => false
  | some d => if d = "" then false else !(recordDoctor == some d)

/-- The errors `update_appointment_status` aborts with (each raised as a
distinct HTTP status in the source: 404, 500, 403). -/
inductive WorkflowError
  | recordNotFound
  | incompleteRecord
  | unauthorized
deriving DecidableEq, Repr

/-- The success dictionary returned by `update_appointment_status`. -/
structure WorkflowSuccess where
  status : String
  message : String
  notificationResult : FanoutResult
deriving DecidableEq, Repr

/-- The Firestore update of step 1: set `status` and the server timestamp,
and set `cancellationReason` when the payload carries a truthy reason. -/
def applyStatusUpdate (r : ApptRecord) (newStatus : AppointmentStatus)
    (reason : Option String) : ApptRecord :=
  let r1 := { r with status := newStatus.value, statusUpdatedAt := true }
  if optFalsy reason then r1 else { r1 with cancellationReason := reason }

/-- `notif_title` of step 2. -/
def notifTitle (p : UpdatePayload) : String :=
  "Appointment " ++ p.newStatus.nameCapitalized

/-- `notif_body` of step 2, with the reason appended when the new status is
`DECLINED_DOCTOR` and the payload carries a truthy reason. -/
def notifBody (p : UpdatePayload) (r : ApptRecord) : String :=
  let base := "Your appointment with Dr. " ++ r.doctorName.getD "your doctor"
    ++ " has been " ++ p.newStatus.value ++ "."
  if p.newStatus = AppointmentStatus.declinedDoctor ∧ optFalsy p.cancellationReason = false
  then base ++ " Reason: " ++ p.cancellationReason.getD ""
  else base

/-- `data_payload_patient` of step 2. -/
def dataPayloadPatient (p : UpdatePayload) : List (String × String) :=
  [("type", "appointment_update"),
   ("appointmentId", p.appointmentId),
   ("newStatus", p.newStatus.value),
   ("route", "/appointments/detail/" ++ p.appointmentId)]

/-- `update_appointment_status(payload)`: read the appointment, abort with a
distinct error (and no store mutation) when the record is missing, the
patient id is falsy, or the supplied doctor id mismatches; otherwise persist
the new status first and then notify the patient, returning the combined
result.  Returns the response together with the resulting appointment and
user stores. -/
def updateAppointmentStatus (send : Nat → String → SendOutcome)
    (payload : UpdatePayload) (appts : Appts) (users : Users) :
    Except WorkflowError WorkflowSuccess × Appts × Users :=
  match lookupAppt appts payload.appointmentId with
  | none => (Except.error .recordNotFound, appts, users)
  | some record =>
    if optFalsy record.patientId then
      (Except.error .incompleteRecord, appts, users)
    else if authMismatch payload.doctorId record.doctorId then
      (Except.error .unauthorized, appts, users)
    else
      let appts' := updateAppt appts payload.appointmentId
        (applyStatusUpdate record payload.newStatus payload.cancellationReason)
      let res := sendNotificationsToUser send (record.patientId.getD "")
        "patient" (notifTitle payload) (notifBody payload record)
        (dataPayloadPatient payload) true users
      (Except.ok
        { status := "success",
          message := "Appointment status updated to " ++ payload.newStatus.value,
          notificationResult := res.1 },
       appts', res.2.users)

/-! ### Helper lemmas about the fanout loop -/

theorem sendLoop_sendTrace (send : Nat → String → SendOutcome) (uid : String) :
    ∀ (ts : List String) (i : Nat) (users : Users),
      (sendLoop send uid ts i users).sendTrace = ts := by
  intro ts
  induction ts with
  | nil => intro i users; rfl
  | cons t ts ih =>
    intro i users
    cases h : send i t <;> simp [sendLoop, h, ih]

theorem sendLoop_counts (send : Nat → String → SendOutcome) (uid : String) :
    ∀ (ts : List String) (i : Nat) (users : Users),
      (sendLoop send uid ts i users).success + (sendLoop send uid ts i users).failure
        = ts.length := by
  intro ts
  induction ts with
  | nil => intro i users; rfl
  | cons t ts ih =>
    intro i users
    cases h : send i t <;> simp [sendLoop, h] <;>
      [have key := ih (i + 1) users;
       have key := ih (i + 1) (removeUnregisteredToken users uid t).2;
       have key := ih (i + 1) users;
       have key := ih (i + 1) users] <;> omega

theorem sendLoop_pruneTrace (send : Nat → String → SendOutcome) (uid : String) :
    ∀ (ts : List String) (i : Nat) (users : Users),
      (sendLoop send uid ts i users).pruneTrace = invalidTargets send ts i := by
  intro ts
  induction ts with
  | nil => intro i users; rfl
  | cons t ts ih =>
    intro i users
    cases h : send i t <;> simp [sendLoop, invalidTargets, h, ih]

theorem sendLoop_counts_indep (send : Nat → String → SendOutcome) (uid : String) :
    ∀ (ts : List String) (i : Nat) (users users' : Users),
      (sendLoop send uid ts i users).success = (sendLoop send uid ts i users').success ∧
      (sendLoop send uid ts i users).failure = (sendLoop send uid ts i users').failure := by
  intro ts
  induction ts with
  | nil => intro i users users'; exact ⟨rfl, rfl⟩
  | cons t ts ih =>
    intro i users users'
    cases h : send i t <;>
      simp only [sendLoop, h] <;>
      [exact ⟨congrArg (· + 1) (ih (i + 1) users users').1, (ih (i + 1) users users').2⟩;
       exact ⟨(ih (i + 1) _ _).1, congrArg (· + 1) (ih (i + 1) _ _).2⟩;
       exact ⟨(ih (i + 1) users users').1, congrArg (· + 1) (ih (i + 1) users users').2⟩;
       exact ⟨(ih (i + 1) users users').1, congrArg (· + 1) (ih (i + 1) users users').2⟩]

theorem sendNotif_empty (send : Nat → String → SendOutcome)
    (uid uty title body : String) (data : List (String × String)) (hp : Bool)
    (users : Users) (h : getUserFcmTokens users uid = []) :
    sendNotificationsToUser send uid uty title body data hp users =
      (FanoutResult.noTarget ("No FCM tokens available for " ++ uty ++ " " ++ uid),
       { success := 0, failure := 0, removed := 0, users := users,
         sendTrace := [], pruneTrace := [] }) := by
  simp [sendNotificationsToUser, h]

theorem sendNotif_nonempty (send : Nat → String → SendOutcome)
    (uid uty title body : String) (data : List (String × String)) (hp : Bool)
    (users : Users) (h : getUserFcmTokens users uid ≠ []) :
    sendNotificationsToUser send uid uty title body data hp users =
      (FanoutResult.counted
         (deriveStatus (sendLoop send uid (getUserFcmTokens users uid) 0 users).success
            (sendLoop send uid (getUserFcmTokens users uid) 0 users).failure)
         (sendLoop send uid (getUserFcmTokens users uid) 0 users).success
         (sendLoop send uid (getUserFcmTokens users uid) 0 users).failure
         (getUserFcmTokens users uid).length
         (sendLoop send uid (getUserFcmTokens users uid) 0 users).removed,
       sendLoop send uid (getUserFcmTokens users uid) 0 users) := by
  simp [sendNotificationsToUser, h]

/-! ### Helper lemmas about the association-list stores -/

theorem lookupUser_updateUser_self :
    ∀ (users : Users) (uid : String) (f g : TokenField),
      lookupUser users uid = some f →
      lookupUser (updateUser users uid g) uid = some g := by
  intro users uid f g
  induction users with
  | nil => intro h; cases h
  | cons p rest ih =>
    intro h
    obtain ⟨k, v⟩ := p
    by_cases hk : k = uid
    · subst hk
      have h1 : updateUser ((k, v) :: rest) k g = (k, g) :: updateUser rest k g := by
        simp [updateUser]
      rw [h1]
      simp [lookupUser]
    · have h1 : updateUser ((k, v) :: rest) uid g = (k, v) :: updateUser rest uid g := by
        simp [updateUser, hk]
      rw [h1]
      simp only [lookupUser, if_neg hk] at h ⊢
      exact ih h

theorem lookupUser_updateUser_ne :
    ∀ (users : Users) (uid uid' : String) (g : TokenField), uid' ≠ uid →
      lookupUser (updateUser users uid g) uid' = lookupUser users uid' := by
  intro users uid uid' g hne
  induction users with
  | nil => rfl
  | cons p rest ih =>
    obtain ⟨k, v⟩ := p
    by_cases hk : k = uid
    · subst hk
      have h1 : updateUser ((k, v) :: rest) k g = (k, g) :: updateUser rest k g := by
        simp [updateUser]
      rw [h1]
      have hku : ¬ k = uid' := fun hx => hne hx.symm
      simp only [lookupUser, if_neg hku, ih]
    · have h1 : updateUser ((k, v) :: rest) uid g = (k, v) :: updateUser rest uid g := by
        simp [updateUser, hk]
      rw [h1]
      by_cases hk' : k = uid'
      · subst hk'
        simp [lookupUser]
      · simp only [lookupUser, if_neg hk', ih]

theorem lookupAppt_updateAppt_self :
    ∀ (appts : Appts) (aid : String) (r r' : ApptRecord),
      lookupAppt appts aid = some r →
      lookupAppt (updateAppt appts aid r') aid = some r' := by
  intro appts aid r r'
  induction appts with
  | nil => intro h; cases h
  | cons p rest ih =>
    intro h
    obtain ⟨k, v⟩ := p
    by_cases hk : k = aid
    · subst hk
      have h1 : updateAppt ((k, v) :: rest) k r' = (k, r') :: updateAppt rest k r' := by
        simp [updateAppt]
      rw [h1]
      simp [lookupAppt]
    · have h1 : updateAppt ((k, v) :: rest) aid r' = (k, v) :: updateAppt rest aid r' := by
        simp [updateAppt, hk]
      rw [h1]
      simp only [lookupAppt, if_neg hk] at h ⊢
      exact ih h

/-! ### Concrete fixtures used by witnesses -/

def sampleUsers : Users :=
  [("u1", TokenField.listField [FieldVal.str "a", FieldVal.str "b"])]

def allFailSend : Nat → String → SendOutcome := fun _ _ => SendOutcome.firebaseErr

def mixedSend : Nat → String → SendOutcome := fun i _ =>
  if i = 0 then SendOutcome.delivered "m1" else SendOutcome.unregistered

/-! ### Claim theorems -/

/-- C3: the overall fanout status is a pure function of the (delivered,
failed) counts alone: `failed = 0 ∧ delivered > 0` gives `"success"`,
`delivered = 0 ∧ failed > 0` gives `"failure"`, both positive gives
`"partial_success"`; the status component of every counted fanout result
equals `deriveStatus` of its own count components (so no other input affects
the derivation); and zero targets yields the no-targets status. -/
theorem fanoutStatusPureFunctionOfCounts :
    (∀ s f : Nat,
      (f = 0 → 0 < s → deriveStatus s f = "success") ∧
      (s = 0 → 0 < f → deriveStatus s f = "failure") ∧
      (0 < s → 0 < f → deriveStatus s f = "partial_success")) ∧
    (∀ (send : Nat → String → SendOutcome) (uid uty title body : String)
       (data : List (String × String)) (hp : Bool) (users : Users)
       (st : String) (sc fc tt tr : Nat),
      (sendNotificationsToUser send uid uty title body data hp users).1 =
        FanoutResult.counted st sc fc tt tr → st = deriveStatus sc fc) ∧
    (∀ (send : Nat → String → SendOutcome) (uid uty title body : String)
       (data : List (String × String)) (hp : Bool) (users : Users),
      getUserFcmTokens users uid = [] →
      (sendNotificationsToUser send uid uty title body data hp users).1 =
        FanoutResult.noTarget ("No FCM tokens available for " ++ uty ++ " " ++ uid)) := by
  refine ⟨?_, ?_, ?_⟩
  · intro s f
    refine ⟨?_, ?_, ?_⟩
    · rintro rfl hs
      simp [deriveStatus]
    · rintro rfl hf
      simp [deriveStatus, hf]
    · intro hs hf
      simp [deriveStatus, hf, hs.ne']
  · intro send uid uty title body data hp users st sc fc tt tr h
    by_cases htok : getUserFcmTokens users uid = []
    · rw [sendNotif_empty send uid uty title body data hp users htok] at h
      cases h
    · rw [sendNotif_nonempty send uid uty title body data hp users htok] at h
      injection h with h1 h2 h3 h4 h5
      subst h1
      subst h2
      subst h3
      rfl
  · intro send uid uty title body data hp users h
    rw [sendNotif_empty send uid uty title body data hp users h]

/-- Witness for C3 at concrete counts. -/
theorem fanoutStatusPureFunctionOfCounts_w :
    deriveStatus 0 2 = "failure" :=
  (fanoutStatusPureFunctionOfCounts.1 0 2).2.1 rfl (by decide)

/-- C4: a recipient whose resolved target sequence is empty yields status
`no_target` immediately: the provider-call trace is empty (zero provider
invocations) and the stores are untouched. -/
theorem emptyTargetsNoProviderCalls :
    ∀ (send : Nat → String → SendOutcome) (uid uty title body : String)
      (data : List (String × String)) (hp : Bool) (users : Users),
      getUserFcmTokens users uid = [] →
      sendNotificationsToUser send uid uty title body data hp users =
        (FanoutResult.noTarget ("No FCM tokens available for " ++ uty ++ " " ++ uid),
         { success := 0, failure := 0, removed := 0, users := users,
           sendTrace := [], pruneTrace := [] }) := by
  intro send uid uty title body data hp users h
  exact sendNotif_empty send uid uty title body data hp users h

/-- Witness for C4: a recipient whose stored list holds no valid token. -/
theorem emptyTargetsNoProviderCalls_w :
    sendNotificationsToUser allFailSend "u2" "patient" "t" "b" [] false
        [("u2", TokenField.listField [FieldVal.nonStr, FieldVal.str ""])] =
      (FanoutResult.noTarget ("No FCM tokens available for " ++ "patient" ++ " " ++ "u2"),
       { success := 0, failure := 0, removed := 0,
         users := [("u2", TokenField.listField [FieldVal.nonStr, FieldVal.str ""])],
         sendTrace := [], pruneTrace := [] }) :=
  emptyTargetsNoProviderCalls allFailSend "u2" "patient" "t" "b" [] false
    [("u2", TokenField.listField [FieldVal.nonStr, FieldVal.str ""])] (by decide)

/-- C6: no short-circuiting: the loop invokes the provider for every resolved
target in order, whatever the outcome of earlier targets, and at the fanout
level the provider-call trace equals the whole resolved token list. -/
theorem fanoutNoShortCircuit :
    (∀ (send : Nat → String → SendOutcome) (uid : String) (ts : List String)
       (i : Nat) (users : Users),
      (sendLoop send uid ts i users).sendTrace = ts) ∧
    (∀ (send : Nat → String → SendOutcome) (uid uty title body : String)
       (data : List (String × String)) (hp : Bool) (users : Users),
      getUserFcmTokens users uid ≠ [] →
      (sendNotificationsToUser send uid uty title body data hp users).2.sendTrace =
        getUserFcmTokens users uid) := by
  constructor
  · intro send uid ts i users
    exact sendLoop_sendTrace send uid ts i users
  · intro send uid uty title body data hp users h
    rw [sendNotif_nonempty send uid uty title body data hp users h]
    exact sendLoop_sendTrace send uid _ 0 users

/-- Witness for C6: both tokens are attempted although the first is reported
permanently invalid (and the second also fails). -/
theorem fanoutNoShortCircuit_w :
    (sendNotificationsToUser (fun _ _ => SendOutcome.unregistered) "u1" "patient"
        "t" "b" [] false sampleUsers).2.sendTrace = getUserFcmTokens sampleUsers "u1" :=
  fanoutNoShortCircuit.2 (fun _ _ => SendOutcome.unregistered) "u1" "patient"
    "t" "b" [] false sampleUsers (by decide)

/-- C9: every targeted token is accounted for by exactly one counted outcome:
the loop's success and failure counters sum to the token-list length, and the
counted fanout result always satisfies
`successCount + failureCount = tokensTargeted`. -/
theorem fanoutCountsTotal :
    (∀ (send : Nat → String → SendOutcome) (uid : String) (ts : List String)
       (i : Nat) (users : Users),
      (sendLoop send uid ts i users).success + (sendLoop send uid ts i users).failure
        = ts.length) ∧
    (∀ (send : Nat → String → SendOutcome) (uid uty title body : String)
       (data : List (String × String)) (hp : Bool) (users : Users)
       (st : String) (sc fc tt tr : Nat),
      (sendNotificationsToUser send uid uty title body data hp users).1 =
        FanoutResult.counted st sc fc tt tr → sc + fc = tt) := by
  constructor
  · intro send uid ts i users
    exact sendLoop_counts send uid ts i users
  · intro send uid uty title body data hp users st sc fc tt tr h
    by_cases htok : getUserFcmTokens users uid = []
    · rw [sendNotif_empty send uid uty title body data hp users htok] at h
      cases h
    · rw [sendNotif_nonempty send uid uty title body data hp users htok] at h
      injection h with h1 h2 h3 h4 h5
      subst h2
      subst h3
      subst h4
      exact sendLoop_counts send uid _ 0 users

/-- Witness for C9: one delivery and one invalid target over two tokens. -/
theorem fanoutCountsTotal_w : (1 : Nat) + 1 = 2 :=
  fanoutCountsTotal.2 mixedSend "u1" "patient" "t" "b" [] false sampleUsers
    "partial_success" 1 1 2 1 (by decide)

/-- C5: every `TargetInvalid` outcome triggers exactly one prune attempt for
that specific target (the prune trace equals the ordered list of invalid
targets); the prune outcome never reaches the caller (the success and failure
counters — and hence the derived status — are independent of the user store
the prunes act on); and pruning is idempotent: pruning a target absent from
the stored list returns `false` with the store unchanged, not an error. -/
theorem invalidTargetPruneBehaviour :
    (∀ (send : Nat → String → SendOutcome) (uid : String) (ts : List String)
       (i : Nat) (users : Users),
      (sendLoop send uid ts i users).pruneTrace = invalidTargets send ts i) ∧
    (∀ (send : Nat → String → SendOutcome) (uid : String) (ts : List String)
       (i : Nat) (users users' : Users),
      (sendLoop send uid ts i users).success = (sendLoop send uid ts i users').success ∧
      (sendLoop send uid ts i users).failure = (sendLoop send uid ts i users').failure) ∧
    (∀ (users : Users) (uid t : String) (ts : List FieldVal),
      lookupUser users uid = some (TokenField.listField ts) →
      ts.contains (FieldVal.str t) = false →
      removeUnregisteredToken users uid t = (false, users)) := by
  refine ⟨?_, ?_, ?_⟩
  · intro send uid ts i users
    exact sendLoop_pruneTrace send uid ts i users
  · intro send uid ts i users users'
    exact sendLoop_counts_indep send uid ts i users users'
  · intro users uid t ts hl hc
    have hmem : FieldVal.str t ∉ ts := by simpa using hc
    simp [removeUnregisteredToken, hl, hmem]

/-- Witness for C5: pruning a token that is not stored returns `false` and
leaves the store unchanged. -/
theorem invalidTargetPruneBehaviour_w :
    removeUnregisteredToken sampleUsers "u1" "z" = (false, sampleUsers) :=
  invalidTargetPruneBehaviour.2.2 sampleUsers "u1" "z"
    [FieldVal.str "a", FieldVal.str "b"] (by decide) (by decide)

/-! ### Workflow fixtures and helper -/

def sampleRecord : ApptRecord :=
  { status := "pending", patientId := some "u1", doctorId := some "d1",
    doctorName := some "Who", cancellationReason := none, statusUpdatedAt := false }

def sampleAppts : Appts := [("a1", sampleRecord)]

def samplePayload : UpdatePayload :=
  { appointmentId := "a1", newStatus := AppointmentStatus.confirmed,
    doctorId := none, cancellationReason := none }

theorem applyStatusUpdate_status (r : ApptRecord) (ns : AppointmentStatus)
    (reason : Option String) : (applyStatusUpdate r ns reason).status = ns.value := by
  simp only [applyStatusUpdate]
  split <;> rfl

theorem updateAppointmentStatus_ok (send : Nat → String → SendOutcome)
    (payload : UpdatePayload) (appts : Appts) (users : Users) (record : ApptRecord)
    (h1 : lookupAppt appts payload.appointmentId = some record)
    (h2 : optFalsy record.patientId = false)
    (h3 : authMismatch payload.doctorId record.doctorId = false) :
    updateAppointmentStatus send payload appts users =
      (Except.ok
        { status := "success",
          message := "Appointment status updated to " ++ payload.newStatus.value,
          notificationResult :=
            (sendNotificationsToUser send (record.patientId.getD "") "patient"
               (notifTitle payload) (notifBody payload record)
               (dataPayloadPatient payload) true users).1 },
       updateAppt appts payload.appointmentId
         (applyStatusUpdate record payload.newStatus payload.cancellationReason),
       (sendNotificationsToUser send (record.patientId.getD "") "patient"
          (notifTitle payload) (notifBody payload record)
          (dataPayloadPatient payload) true users).2.users) := by
  simp [updateAppointmentStatus, h1, h2, h3]

/-- C1: when the existence, completeness and authorization checks pass,
`update_appointment_status` persists the new status and then notifies: the
response embeds the fanout result computed for the patient while its
top-level status stays `"success"` whatever the notification outcome, and the
persisted appointment status after the call equals `newStatus` — a
notification outcome of `failure` or `partial_success` never reverts the
committed transition (the quantification over `send` covers every possible
set of notification outcomes). -/
theorem transitionCommitNotRolledBack :
    ∀ (send : Nat → String → SendOutcome) (payload : UpdatePayload)
      (appts : Appts) (users : Users) (record : ApptRecord),
      lookupAppt appts payload.appointmentId = some record →
      optFalsy record.patientId = false →
      authMismatch payload.doctorId record.doctorId = false →
      (updateAppointmentStatus send payload appts users).1 =
        Except.ok
          { status := "success",
            message := "Appointment status updated to " ++ payload.newStatus.value,
            notificationResult :=
              (sendNotificationsToUser send (record.patientId.getD "") "patient"
                 (notifTitle payload) (notifBody payload record)
                 (dataPayloadPatient payload) true users).1 } ∧
      lookupAppt (updateAppointmentStatus send payload appts users).2.1
          payload.appointmentId =
        some (applyStatusUpdate record payload.newStatus payload.cancellationReason) ∧
      (applyStatusUpdate record payload.newStatus payload.cancellationReason).status =
        payload.newStatus.value := by
  intro send payload appts users record h1 h2 h3
  rw [updateAppointmentStatus_ok send payload appts users record h1 h2 h3]
  refine ⟨rfl, ?_, applyStatusUpdate_status record payload.newStatus payload.cancellationReason⟩
  exact lookupAppt_updateAppt_self appts payload.appointmentId record _ h1

/-- Witness for C1: every provider call fails, yet the persisted status is the
new one and the response still reports the transition as committed. -/
theorem transitionCommitNotRolledBack_w :
    ((updateAppointmentStatus allFailSend samplePayload sampleAppts sampleUsers).1 =
        Except.ok
          { status := "success",
            message := "Appointment status updated to " ++ samplePayload.newStatus.value,
            notificationResult :=
              (sendNotificationsToUser allFailSend (sampleRecord.patientId.getD "")
                 "patient" (notifTitle samplePayload) (notifBody samplePayload sampleRecord)
                 (dataPayloadPatient samplePayload) true sampleUsers).1 } ∧
      lookupAppt (updateAppointmentStatus allFailSend samplePayload sampleAppts sampleUsers).2.1
          samplePayload.appointmentId =
        some (applyStatusUpdate sampleRecord samplePayload.newStatus samplePayload.cancellationReason) ∧
      (applyStatusUpdate sampleRecord samplePayload.newStatus samplePayload.cancellationReason).status =
        samplePayload.newStatus.value) ∧
    (sendNotificationsToUser allFailSend "u1" "patient" (notifTitle samplePayload)
       (notifBody samplePayload sampleRecord) (dataPayloadPatient samplePayload)
       true sampleUsers).1 = FanoutResult.counted "failure" 0 2 2 0 :=
  ⟨transitionCommitNotRolledBack allFailSend samplePayload sampleAppts sampleUsers
     sampleRecord (by decide) (by decide) (by decide), by decide⟩

/-- C2: each failed precondition aborts the workflow with its own distinct
error and performs no mutation of either store: a missing record gives
`recordNotFound`, a falsy patient id gives `incompleteRecord`, and a supplied
doctor id that differs from the record's gives `unauthorized`; in every case
the appointment and user stores are returned unchanged. -/
theorem rejectedTransitionNoMutation :
    ∀ (send : Nat → String → SendOutcome) (payload : UpdatePayload)
      (appts : Appts) (users : Users),
      (lookupAppt appts payload.appointmentId = none →
        updateAppointmentStatus send payload appts users =
          (Except.error WorkflowError.recordNotFound, appts, users)) ∧
      (∀ record, lookupAppt appts payload.appointmentId = some record →
        optFalsy record.patientId = true →
        updateAppointmentStatus send payload appts users =
          (Except.error WorkflowError.incompleteRecord, appts, users)) ∧
      (∀ record, lookupAppt appts payload.appointmentId = some record →
        optFalsy record.patientId = false →
        authMismatch payload.doctorId record.doctorId = true →
        updateAppointmentStatus send payload appts users =
          (Except.error WorkflowError.unauthorized, appts, users)) := by
  intro send payload appts users
  refine ⟨?_, ?_, ?_⟩
  · intro h
    simp [updateAppointmentStatus, h]
  · intro record h1 h2
    simp [updateAppointmentStatus, h1, h2]
  · intro record h1 h2 h3
    simp [updateAppointmentStatus, h1, h2, h3]

/-- Witness for C2: a mismatched doctor id is rejected as unauthorized with
both stores unchanged. -/
theorem rejectedTransitionNoMutation_w :
    updateAppointmentStatus allFailSend
        { appointmentId := "a1", newStatus := AppointmentStatus.confirmed,
          doctorId := some "dX", cancellationReason := none }
        sampleAppts sampleUsers =
      (Except.error WorkflowError.unauthorized, sampleAppts, sampleUsers) :=
  (rejectedTransitionNoMutation allFailSend
      { appointmentId := "a1", newStatus := AppointmentStatus.confirmed,
        doctorId := some "dX", cancellationReason := none }
      sampleAppts sampleUsers).2.2 sampleRecord (by decide) (by decide) (by decide)

/-- Definition following the spec's words for `resolveTargets` (§4.1), for
comparison with the code: it fails with `RecipientNotFound` (modelled as
`Except.error ()`) when no record exists, and otherwise resolves exactly as
the code does.  The code itself (`getUserFcmTokens`) has no error channel. -/
def resolveTargetsSpec (users : Users) (uid : String) : Except Unit (List String) :=
  match lookupUser users uid with
  | none => Except.error ()
  | some f =>
    Except.ok
      (match f with
       | .listField ts => filterValid ts
       | .strField s => if s = "" then [] else [s]
       | .missing => []
       | .otherField => [])

/-- C7 counterexample: for a store holding no record for `"u9"` the code
returns the plain empty sequence — the same value it returns for an existing
record with no valid targets — whereas the claimed behaviour is a distinct
`RecipientNotFound` failure; no call of `get_user_fcm_tokens` can fail. -/
theorem resolveTargetsNoRecipientError_cx :
    getUserFcmTokens [] "u9" = [] ∧
    getUserFcmTokens [("u9", TokenField.listField [])] "u9" = [] ∧
    resolveTargetsSpec [] "u9" = Except.error () ∧
    Except.ok (getUserFcmTokens [] "u9") ≠ resolveTargetsSpec [] "u9" := by
  refine ⟨rfl, rfl, rfl, ?_⟩
  intro h
  exact Except.noConfusion h

/-- C7 amended: `resolveTargets` returns an empty sequence (not an error)
both when no record exists for the recipient id and when the record exists
but holds no valid targets; entries that are not well-formed non-empty
strings are silently filtered out, and a counted fanout result's
`tokensTargeted` counts only the surviving valid tokens. -/
theorem resolveTargetsAmended :
    (∀ (users : Users) (uid : String), lookupUser users uid = none →
      getUserFcmTokens users uid = []) ∧
    (∀ (users : Users) (uid : String) (ts : List FieldVal),
      lookupUser users uid = some (TokenField.listField ts) →
      getUserFcmTokens users uid = filterValid ts) ∧
    (∀ (ts : List FieldVal) (s : String),
      s ∈ filterValid ts ↔ FieldVal.str s ∈ ts ∧ s ≠ "") ∧
    (∀ (send : Nat → String → SendOutcome) (uid uty title body : String)
       (data : List (String × String)) (hp : Bool) (users : Users)
       (st : String) (sc fc tt tr : Nat),
      (sendNotificationsToUser send uid uty title body data hp users).1 =
        FanoutResult.counted st sc fc tt tr →
      tt = (getUserFcmTokens users uid).length) := by
  refine ⟨?_, ?_, ?_, ?_⟩
  · intro users uid h
    simp [getUserFcmTokens, h]
  · intro users uid ts h
    simp [getUserFcmTokens, h]
  · intro ts s
    simp only [filterValid, List.mem_filterMap]
    constructor
    · rintro ⟨v, hv, hg⟩
      cases v with
      | str x =>
        have hg' : (if x = "" then (none : Option String) else some x) = some s := hg
        by_cases hx : x = ""
        · rw [if_pos hx] at hg'
          cases hg'
        · rw [if_neg hx] at hg'
          injection hg' with hxs
          subst hxs
          exact ⟨hv, hx⟩
      | nonStr => cases hg
    · rintro ⟨hmem, hs⟩
      exact ⟨FieldVal.str s, hmem, by simp [hs]⟩
  · intro send uid uty title body data hp users st sc fc tt tr h
    by_cases htok : getUserFcmTokens users uid = []
    · rw [sendNotif_empty send uid uty title body data hp users htok] at h
      cases h
    · rw [sendNotif_nonempty send uid uty title body data hp users htok] at h
      injection h with h1 h2 h3 h4 h5
      exact h4.symm

/-- Witness for C7 (amended): a list field containing a non-string entry, an
empty string, and one valid token resolves to the filtered token list. -/
theorem resolveTargetsAmended_w :
    getUserFcmTokens
        [("u9", TokenField.listField [FieldVal.nonStr, FieldVal.str "", FieldVal.str "a"])]
        "u9" =
      filterValid [FieldVal.nonStr, FieldVal.str "", FieldVal.str "a"] :=
  resolveTargetsAmended.2.1
    [("u9", TokenField.listField [FieldVal.nonStr, FieldVal.str "", FieldVal.str "a"])]
    "u9" [FieldVal.nonStr, FieldVal.str "", FieldVal.str "a"] (by decide)

/-- A target list with neither duplicate entries nor an empty-string entry. -/
def cleanList (ts : List FieldVal) : Prop :=
  ts.Nodup ∧ FieldVal.str "" ∉ ts

def c8Store : Users :=
  [("u3", TokenField.listField [FieldVal.str "a", FieldVal.str ""]),
   ("u6", TokenField.listField [FieldVal.str "b", FieldVal.str "b", FieldVal.str "a"])]

/-- C8 counterexample: a successful prune does not clean pre-existing bad
entries: pruning `"a"` from `[str "a", str ""]` succeeds yet leaves an
empty-string entry stored, and pruning `"a"` from `[str "b", str "b",
str "a"]` succeeds yet leaves a duplicate stored. -/
theorem pruneInvariant_cx :
    (removeUnregisteredToken c8Store "u3" "a").1 = true ∧
    lookupUser (removeUnregisteredToken c8Store "u3" "a").2 "u3" =
      some (TokenField.listField [FieldVal.str ""]) ∧
    ¬ cleanList [FieldVal.str ""] ∧
    (removeUnregisteredToken c8Store "u6" "a").1 = true ∧
    lookupUser (removeUnregisteredToken c8Store "u6" "a").2 "u6" =
      some (TokenField.listField [FieldVal.str "b", FieldVal.str "b"]) ∧
    ¬ cleanList [FieldVal.str "b", FieldVal.str "b"] := by
  refine ⟨by decide, by decide, ?_, by decide, by decide, ?_⟩
  · intro h
    exact h.2 (by decide)
  · intro h
    exact (by decide : ¬ List.Nodup [FieldVal.str "b", FieldVal.str "b"]) h.1

/-- C8 amended: pruning preserves cleanliness rather than establishing it:
if the recipient's stored list holds no duplicate and no empty-string entry
before the prune, the stored list after the prune (when still a list) holds
none either, and every other recipient's field is untouched. -/
theorem pruneInvariantPreserved :
    ∀ (users : Users) (uid t : String) (ts : List FieldVal),
      lookupUser users uid = some (TokenField.listField ts) → cleanList ts →
      (∀ ts', lookupUser (removeUnregisteredToken users uid t).2 uid =
          some (TokenField.listField ts') → cleanList ts') ∧
      (∀ uid', uid' ≠ uid →
        lookupUser (removeUnregisteredToken users uid t).2 uid' =
          lookupUser users uid') := by
  intro users uid t ts hl hclean
  by_cases hc : ts.contains (FieldVal.str t)
  · have hmem : FieldVal.str t ∈ ts := by simpa using hc
    have hres : removeUnregisteredToken users uid t =
        (true, updateUser users uid (.listField (ts.erase (FieldVal.str t)))) := by
      simp [removeUnregisteredToken, hl, hmem]
    rw [hres]
    constructor
    · intro ts' hl'
      rw [lookupUser_updateUser_self users uid _ _ hl] at hl'
      injection hl' with hl''
      injection hl'' with hts
      subst hts
      exact ⟨hclean.1.erase _, fun hm => hclean.2 (List.mem_of_mem_erase hm)⟩
    · intro uid' hne
      exact lookupUser_updateUser_ne users uid uid' _ hne
  · have hres : removeUnregisteredToken users uid t = (false, users) := by
      simp only [removeUnregisteredToken, hl]
      rw [if_neg hc]
    rw [hres]
    constructor
    · intro ts' hl'
      rw [hl] at hl'
      injection hl' with hl''
      injection hl'' with hts
      subst hts
      exact hclean
    · intro uid' hne
      rfl

/-- Witness for C8 (amended): pruning `"a"` from the clean list
`[str "a", str "b"]` leaves the clean list `[str "b"]`. -/
theorem pruneInvariantPreserved_w :
    cleanList [FieldVal.str "b"] :=
  (pruneInvariantPreserved [("u4", TokenField.listField [FieldVal.str "a", FieldVal.str "b"])]
      "u4" "a" [FieldVal.str "a", FieldVal.str "b"] (by decide)
      ⟨by decide, by decide⟩).1 [FieldVal.str "b"] (by decide)

/-- C10: when the stored token field is a single non-empty string, resolution
returns that one-element sequence; pruning that exact target succeeds, the
field is deleted entirely (`DELETE_FIELD`), and a subsequent resolution for
the recipient returns the empty sequence. -/
theorem singleStringTokenPrune :
    ∀ (users : Users) (uid s : String),
      lookupUser users uid = some (TokenField.strField s) → s ≠ "" →
      getUserFcmTokens users uid = [s] ∧
      (removeUnregisteredToken users uid s).1 = true ∧
      lookupUser (removeUnregisteredToken users uid s).2 uid = some TokenField.missing ∧
      getUserFcmTokens (removeUnregisteredToken users uid s).2 uid = [] := by
  intro users uid s hl hs
  have hres : removeUnregisteredToken users uid s =
      (true, updateUser users uid .missing) := by
    simp [removeUnregisteredToken, hl]
  have hlook : lookupUser (updateUser users uid .missing) uid = some .missing :=
    lookupUser_updateUser_self users uid _ _ hl
  refine ⟨?_, ?_, ?_, ?_⟩
  · simp [getUserFcmTokens, hl, hs]
  · rw [hres]
  · rw [hres]
    exact hlook
  · rw [hres]
    simp [getUserFcmTokens, hlook]

/-- Witness for C10 at a concrete single-string store. -/
theorem singleStringTokenPrune_w :
    getUserFcmTokens [("u5", TokenField.strField "tok")] "u5" = ["tok"] ∧
    (removeUnregisteredToken [("u5", TokenField.strField "tok")] "u5" "tok").1 = true ∧
    lookupUser (removeUnregisteredToken [("u5", TokenField.strField "tok")] "u5" "tok").2 "u5" =
      some TokenField.missing ∧
    getUserFcmTokens (removeUnregisteredToken [("u5", TokenField.strField "tok")] "u5" "tok").2 "u5" =
      [] :=
  singleStringTokenPrune [("u5", TokenField.strField "tok")] "u5" "tok"
    (by decide) (by decide)
